import Mathlib

/-!
Shallow embedding of the AnxietyPredictorApp ML service
(`serve.py`, `train_model.py`, `tip_proxy.py`): notes featurization,
feature-row construction, prediction post-processing, bundle manifest
resolution, and the tip selection filter with its static fallback sets.
Python floats are modelled as rationals, Python dicts as association
lists, and the two irrational cyclical time encodings as symbolic
`Value` constructors carrying their integer argument.
-/

set_option maxRecDepth 8192

attribute [local semireducible] Rat.add Rat.sub Rat.mul Rat.inv

namespace AnxietyML

/-- Python `text or ""` on an optional string: `None` and `""` both give `""`. -/
def pyOrStr : Option String → String
  | none => ""
  | some s => s

/-- Python `str.lower()` (all text handled here is ASCII). -/
def pyLower (s : String) : String := String.mk (s.toList.map Char.toLower)

/-- Python `str.strip()` with no argument: drop whitespace from both ends. -/
def pyTrim (s : String) : String :=
  String.mk (((s.toList.dropWhile Char.isWhitespace).reverse.dropWhile
    Char.isWhitespace).reverse)

/-- Tokenizer for Python `s.split()` with no argument: split on whitespace
runs, never producing empty tokens. -/
def splitWsAux : List Char → List Char → List (List Char)
  | [], acc => if acc.isEmpty then [] else [acc.reverse]
  | c :: cs, acc =>
    if c.isWhitespace then
      if acc.isEmpty then splitWsAux cs [] else acc.reverse :: splitWsAux cs []
    else splitWsAux cs (c :: acc)

/-- Python `s.split()` with no argument. -/
def pySplitWs (s : String) : List String := (splitWsAux s.toList []).map String.mk

/-- Splitter for Python `s.split(sep)` with a one-character separator,
keeping empty pieces. -/
def splitOnCharAux (sep : Char) : List Char → List Char → List (List Char)
  | [], acc => [acc.reverse]
  | c :: cs, acc =>
    if c == sep then acc.reverse :: splitOnCharAux sep cs []
    else splitOnCharAux sep cs (c :: acc)

/-- Python `s.split(sep)` for a one-character separator. -/
def pySplitOnChar (s : String) (sep : Char) : List String :=
  (splitOnCharAux sep s.toList []).map String.mk

/-- Substring occurrence test on character lists. -/
def containsChars (pat : List Char) : List Char → Bool
  | [] => pat.isEmpty
  | c :: t => pat.isPrefixOf (c :: t) || containsChars pat t

/-- Python `pat in s` substring test. -/
def pyContains (s pat : String) : Bool := containsChars pat.toList s.toList

/-- Python `s.startswith(pat)`. -/
def pyStartsWith (s pat : String) : Bool := pat.toList.isPrefixOf s.toList

/-- Replacement of every non-overlapping occurrence of `pat` (non-empty)
by `rep`, scanning left to right; fuelled by the input length. -/
def replaceAllCh (pat rep : List Char) : ℕ → List Char → List Char
  | _, [] => []
  | 0, cs => cs
  | n + 1, c :: cs =>
    if !pat.isEmpty && pat.isPrefixOf (c :: cs) then
      rep ++ replaceAllCh pat rep n ((c :: cs).drop pat.length)
    else c :: replaceAllCh pat rep n cs

/-- Python `s.replace(pat, rep)`. -/
def pyReplace (s pat rep : String) : String :=
  String.mk (replaceAllCh pat.toList rep.toList s.toList.length s.toList)

/-- Python `w.strip(chars)`: remove characters of `chars` from both ends. -/
def pyStripChars (w : String) (chars : List Char) : String :=
  String.mk (((w.toList.dropWhile (fun c => chars.contains c)).reverse.dropWhile
    (fun c => chars.contains c)).reverse)

/-- The punctuation set `".,!?"` passed to `strip` by `_simple_sentiment`. -/
def PUNCT : List Char := ['.', ',', '!', '?']

/-- Python two-argument `min` on numbers (kernel-reducible form of `min`). -/
def pyMin (a b : ℚ) : ℚ := if a ≤ b then a else b

/-- Python two-argument `max` on numbers (kernel-reducible form of `max`). -/
def pyMax (a b : ℚ) : ℚ := if a ≤ b then b else a

namespace Serve

/-- Positive sentiment lexicon, `serve.py` `_POS`. -/
def POS : List String :=
  ["calm", "better", "rested", "relaxed", "improved", "ok", "good", "great"]

/-- Negative sentiment lexicon, `serve.py` `_NEG`. -/
def NEG : List String :=
  ["anxious", "panic", "stressed", "overwhelmed", "tired", "exhausted",
   "worried", "nervous", "insomnia"]

/-- `serve.py` `_simple_sentiment`: the set comprehension
`{w.strip(".,!?").lower() for w in text.split()}` is modelled by `dedup`
of the normalized token list. -/
def simple_sentiment (text : String) : ℚ :=
  if text = "" then 0
  else
    let words := ((pySplitWs text).map (fun w => pyLower (pyStripChars w PUNCT))).dedup
    let score : ℤ := ((words.filter (fun w => decide (w ∈ POS))).length : ℤ)
      - ((words.filter (fun w => decide (w ∈ NEG))).length : ℤ)
    pyMax (-1) (pyMin 1 ((score : ℚ) / 5))

/-- `serve.py` `notes_featurize`. -/
def notes_featurize (text : Option String) : List (String × ℚ) :=
  let t := pyTrim (pyOrStr text)
  let toks := pySplitWs t
  let sent := simple_sentiment t
  let low := pyLower t
  [("notes_len", (t.length : ℚ)),
   ("notes_words", (toks.length : ℚ)),
   ("notes_sentiment", sent),
   ("kw_work", if pyContains low "work" then 1 else 0),
   ("kw_school", if pyContains low "school" || pyContains low "class" then 1 else 0),
   ("kw_exam", if pyContains low "exam" || pyContains low "test" || pyContains low "deadline" then 1 else 0),
   ("kw_sleep", if pyContains low "sleep" || pyContains low "insomnia" then 1 else 0),
   ("kw_social", if pyContains low "social" || pyContains low "party" || pyContains low "crowd" then 1 else 0),
   ("kw_finance", if pyContains low "money" || pyContains low "rent" || pyContains low "bills" then 1 else 0),
   ("kw_health", if pyContains low "health" || pyContains low "sick" || pyContains low "doctor" then 1 else 0)]

end Serve

namespace Train

/-- Positive sentiment lexicon, `train_model.py` `_POS`. -/
def POS : List String :=
  ["calm", "better", "rested", "relaxed", "improved", "ok", "good", "great"]

/-- Negative sentiment lexicon, `train_model.py` `_NEG`. -/
def NEG : List String :=
  ["anxious", "panic", "stressed", "overwhelmed", "tired", "exhausted",
   "worried", "nervous", "insomnia"]

/-- `train_model.py` `_simple_sentiment`. -/
def simple_sentiment (text : String) : ℚ :=
  if text = "" then 0
  else
    let words := ((pySplitWs text).map (fun w => pyLower (pyStripChars w PUNCT))).dedup
    let score : ℤ := ((words.filter (fun w => decide (w ∈ POS))).length : ℤ)
      - ((words.filter (fun w => decide (w ∈ NEG))).length : ℤ)
    pyMax (-1) (pyMin 1 ((score : ℚ) / 5))

/-- `train_model.py` `notes_featurize`: builds the three structural entries
first, then appends the keyword flags, mirroring the dict assignments. -/
def notes_featurize (text : Option String) : List (String × ℚ) :=
  let t := pyTrim (pyOrStr text)
  let toks := pySplitWs t
  let sent := simple_sentiment t
  let feats : List (String × ℚ) :=
    [("notes_len", (t.length : ℚ)),
     ("notes_words", (toks.length : ℚ)),
     ("notes_sentiment", sent)]
  let low := pyLower t
  feats ++
   [("kw_work", if pyContains low "work" then 1 else 0),
    ("kw_school", if pyContains low "school" || pyContains low "class" then 1 else 0),
    ("kw_exam", if pyContains low "exam" || pyContains low "test" || pyContains low "deadline" then 1 else 0),
    ("kw_sleep", if pyContains low "sleep" || pyContains low "insomnia" then 1 else 0),
    ("kw_social", if pyContains low "social" || pyContains low "party" || pyContains low "crowd" then 1 else 0),
    ("kw_finance", if pyContains low "money" || pyContains low "rent" || pyContains low "bills" then 1 else 0),
    ("kw_health", if pyContains low "health" || pyContains low "sick" || pyContains low "doctor" then 1 else 0)]

/-- `train_model.py` `BASE_NUMERIC`. -/
def BASE_NUMERIC : List String := ["sleep", "energy", "mood", "anxiety_7d_avg"]

/-- `train_model.py` `NOTE_NUMERIC`. -/
def NOTE_NUMERIC : List String := ["notes_len", "notes_words", "notes_sentiment"]

/-- `train_model.py` `NOTE_KEYWORDS`. -/
def NOTE_KEYWORDS : List String :=
  ["kw_work", "kw_school", "kw_exam", "kw_sleep", "kw_social", "kw_finance", "kw_health"]

/-- `train_model.py` `NUMERIC_FEATURES = BASE_NUMERIC + NOTE_NUMERIC + NOTE_KEYWORDS`. -/
def NUMERIC_FEATURES : List String := BASE_NUMERIC ++ NOTE_NUMERIC ++ NOTE_KEYWORDS

/-- `train_model.py` `TRIGGER_FEATURES`. -/
def TRIGGER_FEATURES : List String := ["triggers"]

/-- The feature-manifest part of the bundle dict written by `main()`
(`train_model.py` lines 214-223): the `numeric_features` and
`trigger_features` entries are the module constants, independent of the
loaded or synthesized dataframe. -/
def bundle_manifest : List String × List String := (NUMERIC_FEATURES, TRIGGER_FEATURES)

end Train

/-- A model bundle as `serve.py` reads it: only the optional manifest keys
matter here; the trained pipeline itself is an opaque collaborator. -/
structure Bundle where
  numeric_features : Option (List String)
  numeric : Option (List String)
  trigger_features : Option (List String)
  trigger_cols : Option (List String)

/-- Python `a or b` where `a` is an optional list from `bundle.get`:
`None` and the empty list are both falsy. -/
def pyOrList (a : Option (List String)) (b : List String) : List String :=
  match a with
  | some l => if l.isEmpty then b else l
  | none => b

/-- `serve.py` legacy default numeric manifest (line 87). -/
def DEFAULT_NUMERIC : List String := ["sleep", "energy", "mood", "anxiety_7d_avg"]

/-- `serve.py` legacy default trigger manifest (line 92). -/
def DEFAULT_TRIGGER : List String := ["triggers"]

/-- `serve.py` lines 84-88:
`bundle.get("numeric_features") or bundle.get("numeric") or [...]`. -/
def serving_numeric_features (b : Bundle) : List String :=
  pyOrList b.numeric_features (pyOrList b.numeric DEFAULT_NUMERIC)

/-- `serve.py` lines 89-93:
`bundle.get("trigger_features") or bundle.get("trigger_cols") or ["triggers"]`. -/
def serving_trigger_features (b : Bundle) : List String :=
  pyOrList b.trigger_features (pyOrList b.trigger_cols DEFAULT_TRIGGER)

/-- The `triggers` field of a check-in: `Union[str, List[str]]`. -/
inductive Triggers where
  | str (s : String)
  | list (l : List String)
deriving DecidableEq, Repr

/-- A check-in request body (`serve.py` `CheckInEntry`). -/
structure CheckInEntry where
  sleep : ℚ
  energy : ℚ
  mood : ℚ
  anxiety_7d_avg : ℚ
  triggers : Triggers
  timestamp : String
  notes : Option String
deriving Repr

/-- The fields of the parsed timestamp that `build_feature_row` reads:
`dt.hour` and `dt.weekday()` (0 = Monday). Parsing itself is
`datetime.fromisoformat`, an external collaborator; a check-in with a
parseable timestamp is modelled by the existence of this value. -/
structure PyDateTime where
  hour : ℕ
  weekday : ℕ
deriving DecidableEq, Repr

/-- A cell of a feature row. Floats are rationals; the four cyclical
features are irrational (`np.sin`/`np.cos` of rational angles) and are
kept symbolic with their integer argument. -/
inductive Value where
  | str (s : String)
  | num (q : ℚ)
  | dowSin (dow : ℕ)
  | dowCos (dow : ℕ)
  | hourSin (hour : ℕ)
  | hourCos (hour : ℕ)
deriving DecidableEq, Repr

/-- A feature row: a Python dict as an insertion-ordered association list. -/
abbrev Row := List (String × Value)

/-- Dict assignment `row[k] = v`: replace in place at an existing key, or
append a new one. -/
def rowInsert : Row → String → Value → Row
  | [], k, v => [(k, v)]
  | p :: t, k, v => if p.1 = k then (k, v) :: t else p :: rowInsert t k v

/-- Dict lookup `row[k]`. -/
def rowGet : Row → String → Option Value
  | [], _ => none
  | p :: t, k => if p.1 = k then some p.2 else rowGet t k

/-- Dict key-membership test `k in row`. -/
def rowHas (r : Row) (k : String) : Bool := (rowGet r k).isSome

/-- Base numeric block of `build_feature_row` (`serve.py` lines 126-136);
mood is inverted to distress direction here. -/
def baseStep (nf : List String) (e : CheckInEntry) (r : Row) : Row :=
  let r := if "sleep" ∈ nf then rowInsert r "sleep" (.num e.sleep) else r
  let r := if "energy" ∈ nf then rowInsert r "energy" (.num e.energy) else r
  let r := if "mood" ∈ nf then rowInsert r "mood" (.num (10 - e.mood)) else r
  if "anxiety_7d_avg" ∈ nf then rowInsert r "anxiety_7d_avg" (.num e.anxiety_7d_avg) else r

/-- Hour / weekend block (lines 138-144). -/
def timeStep (nf : List String) (dt : PyDateTime) (r : Row) : Row :=
  let r := if "hour" ∈ nf then rowInsert r "hour" (.num dt.hour) else r
  if "is_weekend" ∈ nf then
    rowInsert r "is_weekend" (.num (if 5 ≤ dt.weekday then 1 else 0))
  else r

/-- Cyclical block (lines 146-158); the outer `USE_DOW_SIN or USE_DOW_COS`
guards collapse to the inner per-column membership conditions. -/
def cycStep (nf : List String) (dt : PyDateTime) (r : Row) : Row :=
  let r := if "dow_sin" ∈ nf then rowInsert r "dow_sin" (.dowSin dt.weekday) else r
  let r := if "dow_cos" ∈ nf then rowInsert r "dow_cos" (.dowCos dt.weekday) else r
  let r := if "hour_sin" ∈ nf then rowInsert r "hour_sin" (.hourSin dt.hour) else r
  if "hour_cos" ∈ nf then rowInsert r "hour_cos" (.hourCos dt.hour) else r

/-- Comma-joined trigger string (lines 164-167): list inputs are joined,
string inputs pass through (`str(entry.triggers or "")`). -/
def triggersJoin : Triggers → String
  | .list l => String.intercalate "," l
  | .str s => s

/-- Normalized trigger list for the pre-expanded mode (lines 171-174). -/
def triggersNorm : Triggers → List String
  | .list l => l.map (fun t => pyLower (pyTrim t))
  | .str s =>
    ((pySplitOnChar s ',').filter (fun x => !(pyTrim x == ""))).map
      (fun x => pyLower (pyTrim x))

/-- Value of a pre-expanded trigger column (lines 177-178):
`base = tf.replace("trigger_", "").lower()`, then exact membership of
`base` in the normalized trigger list. -/
def trigVal (e : CheckInEntry) (tfc : String) : ℚ :=
  if pyLower (pyReplace tfc "trigger_" "") ∈ triggersNorm e.triggers then 1 else 0

/-- One iteration of the pre-expanded trigger loop (lines 175-178). -/
def trigF (e : CheckInEntry) (r : Row) (tfc : String) : Row :=
  if pyStartsWith tfc "trigger_" then rowInsert r tfc (.num (trigVal e tfc)) else r

/-- Trigger-encoding block (lines 160-178): a literal `triggers` column
selects the joined-string mode, otherwise every `trigger_*` manifest
column is set to 1/0. -/
def trigStep (tf : List String) (e : CheckInEntry) (r : Row) : Row :=
  if "triggers" ∈ tf then rowInsert r "triggers" (.str (triggersJoin e.triggers))
  else tf.foldl (trigF e) r

/-- One iteration of the notes-feature loop (lines 182-184). -/
def noteF (nf : List String) (r : Row) (kv : String × ℚ) : Row :=
  if kv.1 ∈ nf then rowInsert r kv.1 (.num kv.2) else r

/-- Notes block of `build_feature_row` (lines 180-188), including the
legacy `notes_sent` alias for `notes_sentiment`. -/
def noteStep (nf : List String) (e : CheckInEntry) (r : Row) : Row :=
  let note_feats := Serve.notes_featurize (some (pyOrStr e.notes))
  let r := note_feats.foldl (noteF nf) r
  if "notes_sent" ∈ nf then
    match note_feats.find? (fun kv => kv.1 == "notes_sentiment") with
    | some kv => rowInsert r "notes_sent" (.num kv.2)
    | none => r
  else r

/-- One iteration of the fill-defaults loop (lines 192-194). -/
def fillF (r : Row) (col : String) : Row :=
  if rowHas r col then r
  else rowInsert r col (if col == "triggers" then .str "" else .num 0)

/-- Fill block (lines 190-194): iterate the union of manifest columns and
insert defaults for the absent ones. Python iterates an unordered set;
since only absent keys are added, the resulting mapping is independent of
iteration order, modelled by iterating the concatenation. -/
def fillStep (nf tf : List String) (r : Row) : Row :=
  (nf ++ tf).foldl fillF r

/-- `build_feature_row` before the fill block. -/
def build_feature_row_core (nf tf : List String) (e : CheckInEntry)
    (dt : PyDateTime) : Row :=
  noteStep nf e (trigStep tf e (cycStep nf dt (timeStep nf dt (baseStep nf e []))))

/-- `serve.py` `build_feature_row` for a check-in whose timestamp parsed to
`dt`; an unparseable timestamp raises `ValueError` before any row exists. -/
def build_feature_row (nf tf : List String) (e : CheckInEntry)
    (dt : PyDateTime) : Row :=
  fillStep nf tf (build_feature_row_core nf tf e dt)

/-- `np.clip(raw, lo, hi)` (`serve.py` line 206): `min(max(raw, lo), hi)`. -/
def np_clip (x lo hi : ℚ) : ℚ := pyMin (pyMax x lo) hi

/-- Round to the nearest integer, ties to even (the `np.round` policy). -/
def roundHalfEven (y : ℚ) : ℤ :=
  if y - ⌊y⌋ < 1/2 then ⌊y⌋
  else if 1/2 < y - ⌊y⌋ then ⌊y⌋ + 1
  else if ⌊y⌋ % 2 = 0 then ⌊y⌋ else ⌊y⌋ + 1

/-- `np.round(x, 1)` (`serve.py` line 207). -/
def np_round1 (x : ℚ) : ℚ := (roundHalfEven (x * 10) : ℚ) / 10

/-- Post-processing of a raw model output in the `/predict` endpoint
(`serve.py` lines 205-213): clamp into `[0, 10]`, then round to one
decimal; the response is `{"predicted_anxiety": predict_score raw}`. -/
def predict_score (raw : ℚ) : ℚ := np_round1 (np_clip raw 0 10)

/-- `tip_proxy.py` action-verb list in `select_best_tips` (lines 75-78). -/
def TIP_VERBS : List String :=
  ["try", "take", "do", "journal", "walk", "breathe", "reflect", "plan",
   "schedule", "pause", "break", "focus", "stretch", "meditate"]

/-- `re.sub(r'^[0-9]+[\.)]\s*', '', line)` (line 86): strip one leading
digit run followed by `.` or `)` and any whitespace after it. -/
def stripNumbering (line : String) : String :=
  let cs := line.toList
  let digits := cs.takeWhile Char.isDigit
  if digits.isEmpty then line
  else
    match cs.drop digits.length with
    | c :: rest =>
      if c == '.' || c == ')' then String.mk (rest.dropWhile Char.isWhitespace)
      else line
    | [] => line

/-- Literal matcher: consume `pat` from the front, returning the rest. -/
def matchLit : List Char → List Char → Option (List Char)
  | [], cs => some cs
  | _, [] => none
  | p :: ps, c :: cs => if c == p then matchLit ps cs else none

/-- Day alternatives of the trend-echo pattern. -/
def DAY_NAMES : List String := ["mon", "tue", "wed", "thu", "fri", "sat", "sun"]

/-- Match one `(mon|...|sun):\d` group, returning the remainder. -/
def matchDayGroup (cs : List Char) : Option (List Char) :=
  match (DAY_NAMES.filterMap (fun d => matchLit (d.toList ++ [':']) cs)).head? with
  | some (c :: rest) => if c.isDigit then some rest else none
  | _ => none

/-- Match `((mon|...|sun):\d[\s,]*)+` against the whole remaining input;
each group consumes at least five characters, so input length is enough
fuel. -/
def trendGroups : ℕ → List Char → Bool
  | 0, _ => false
  | fuel + 1, cs =>
    match matchDayGroup cs with
    | none => false
    | some rest =>
      let rest2 := rest.dropWhile (fun c => c.isWhitespace || c == ',')
      rest2.isEmpty || trendGroups fuel rest2

/-- `re.fullmatch(r'(tips?:\s*)?((mon|tue|wed|thu|fri|sat|sun):\d[\s,]*)+', low)`
(line 89). No alternative of the pattern overlaps another on the inputs
it can face, so greedy matching without backtracking is exact. -/
def isTrendEcho (low : String) : Bool :=
  let cs := low.toList
  let cs1 :=
    match matchLit "tips:".toList cs with
    | some r => r.dropWhile Char.isWhitespace
    | none =>
      match matchLit "tip:".toList cs with
      | some r => r.dropWhile Char.isWhitespace
      | none => cs
  trendGroups (cs1.length + 1) cs1

/-- Verdict of the per-line filter chain in `select_best_tips`
(lines 80-104): skip, or keep the cleaned line with its dedup key. -/
inductive LineVerdict where
  | skip
  | keep (line low : String)

/-- The per-line filter chain of `select_best_tips`. -/
def processLine (seen : List String) (l : String) : LineVerdict :=
  let line := pyTrim l
  if line = "" then .skip
  else
    let line := stripNumbering line
    let low := pyLower line
    if isTrendEcho low then .skip
    else if pyContains low "anxiety:" && (pyContains low "sleep:" && pyContains low "mood:") then .skip
    else if pyStartsWith low "tips:" && !(TIP_VERBS.any (fun v => pyContains low v)) then .skip
    else if (pySplitWs line).length < 5 then .skip
    else if seen.contains low then .skip
    else .keep line low

/-- The accumulation loop of `select_best_tips` over the flattened line
stream; the early `return tips` at three collected tips becomes the
length guard. -/
def selectAux : List String → List String → List String → List String
  | [], tips, _ => tips
  | l :: rest, tips, seen =>
    if 3 ≤ tips.length then tips
    else
      match processLine seen l with
      | .skip => selectAux rest tips seen
      | .keep line low => selectAux rest (tips ++ [line]) (seen ++ [low])

/-- `tip_proxy.py` `select_best_tips` (lines 72-108). -/
def select_best_tips (raw_outputs : List String) : List String :=
  selectAux ((raw_outputs.map (fun t => pySplitOnChar (pyTrim t) '\n')).flatten) [] []

/-- The high-anxiety static fallback set (`tip_proxy.py` lines 136-140). -/
def FALLBACK_HIGH : List String :=
  ["Take 5 deep breaths and go for a short walk to reduce immediate stress.",
   "Try a grounding exercise: name 5 things you can see, 4 you can touch.",
   "Limit screen time for 30 minutes to lower cognitive overload."]

/-- The moderate static fallback set (lines 141-146). -/
def FALLBACK_MID : List String :=
  ["Write down one worry and schedule a 10-minute worry window later.",
   "Journal for 5 minutes to externalize anxious thoughts.",
   "Set a small achievable goal for the next hour to regain control."]

/-- The low/maintenance static fallback set (lines 147-152). -/
def FALLBACK_LOW : List String :=
  ["Reflect on one recent success to reinforce positive momentum.",
   "Maintain consistent sleep by going to bed 15 minutes earlier tonight.",
   "Take time to plan tomorrow so you start with clarity."]

/-- Fallback selection by predicted score (lines 135-152). -/
def fallback_tips (predicted_anxiety : ℚ) : List String :=
  if 7 ≤ predicted_anxiety then FALLBACK_HIGH
  else if 4 ≤ predicted_anxiety then FALLBACK_MID
  else FALLBACK_LOW

/-- `"\n".join(fallback[:3])` (line 153). -/
def fallback_tip_text (predicted_anxiety : ℚ) : String :=
  String.intercalate "\n" ((fallback_tips predicted_anxiety).take 3)

/-- Outcome of the black-box generator call in `get_tip`: a list of
generated texts, or any raised exception. -/
inductive GenResult where
  | ok (outputs : List String)
  | err

/-- The tip text produced by the `/get-tip` endpoint after the API-key
check (lines 116-155): newline-joined filtered tips, or the static
fallback when generation raised or the filter accepted nothing (the
`ValueError` at zero selected tips lands in the same `except`). -/
def get_tip_text (gen : GenResult) (predicted_anxiety : ℚ) : String :=
  match gen with
  | .ok outs =>
    let selected := select_best_tips outs
    if selected.isEmpty then fallback_tip_text predicted_anxiety
    else String.intercalate "\n" (selected.take 3)
  | .err => fallback_tip_text predicted_anxiety


/-- The fixed key list of `notes_featurize` output, in construction order. -/
def NOTE_KEYS : List String :=
  ["notes_len", "notes_words", "notes_sentiment", "kw_work", "kw_school",
   "kw_exam", "kw_sleep", "kw_social", "kw_finance", "kw_health"]

/-- Python `w.rstrip(chars)`: remove characters of `chars` from the right
end only. Used to state the C5 counterexample, whose wording strips only
trailing punctuation. -/
def pyStripTrailing (w : String) (chars : List Char) : String :=
  String.mk ((w.toList.reverse.dropWhile (fun c => chars.contains c)).reverse)

/-- The C5 sentiment formula read literally from the claim: per-occurrence
token counts after stripping only trailing punctuation. The code instead
deduplicates tokens (a set comprehension) and strips punctuation from both
ends; this definition exists to exhibit the divergence. -/
def sentimentClaimLiteral (text : String) : ℚ :=
  if text = "" then 0
  else
    let norm := (pySplitWs text).map (fun w => pyLower (pyStripTrailing w PUNCT))
    let score : ℤ := ((norm.filter (fun w => decide (w ∈ Serve.POS))).length : ℤ)
      - ((norm.filter (fun w => decide (w ∈ Serve.NEG))).length : ℤ)
    pyMax (-1) (pyMin 1 ((score : ℚ) / 5))

/-- The amended C5 sentiment formula, computed from the lexicon side: the
number of positive-lexicon entries that occur among the normalized note
tokens, minus the number of negative-lexicon entries that occur, divided
by 5 and clamped to `[-1, 1]`. Counting distinct normalized tokens (as the
code's set comprehension does) is equivalent. -/
def sentimentSpecAmended (text : String) : ℚ :=
  if text = "" then 0
  else
    let norm := (pySplitWs text).map (fun w => pyLower (pyStripChars w PUNCT))
    let score : ℤ := ((Serve.POS.filter (fun p => decide (p ∈ norm))).length : ℤ)
      - ((Serve.NEG.filter (fun p => decide (p ∈ norm))).length : ℤ)
    pyMax (-1) (pyMin 1 ((score : ℚ) / 5))

/-! ### Association-list (dict) lemmas -/

theorem rowGet_insert (r : Row) (k : String) (v : Value) (x : String) :
    rowGet (rowInsert r k v) x = if x = k then some v else rowGet r x := by
  induction r with
  | nil =>
    rcases eq_or_ne x k with rfl | hxk
    · simp [rowInsert, rowGet]
    · simp [rowInsert, rowGet, hxk, Ne.symm hxk]
  | cons p t ih =>
    by_cases hp : p.1 = k
    · rcases eq_or_ne x k with rfl | hxk
      · simp [rowInsert, rowGet, hp]
      · have hpx : p.1 ≠ x := by rw [hp]; exact Ne.symm hxk
        simp [rowInsert, rowGet, hp, hxk, hpx, Ne.symm hxk]
    · by_cases hpx : p.1 = x
      · have hxk : x ≠ k := by rw [← hpx]; exact hp
        simp [rowInsert, rowGet, hp, hpx, hxk]
      · simp [rowInsert, rowGet, hp, hpx, ih]

theorem rowGet_insert_self {r : Row} {k : String} {v : Value} :
    rowGet (rowInsert r k v) k = some v := by
  simp [rowGet_insert]

theorem rowGet_insert_ne {r : Row} {k v x} (h : x ≠ k) :
    rowGet (rowInsert r k v) x = rowGet r x := by
  simp [rowGet_insert, h]

theorem rowHas_insert_self {r : Row} {k : String} {v : Value} :
    rowHas (rowInsert r k v) k = true := by
  simp [rowHas, rowGet_insert_self]

theorem rowHas_insert_ne {r : Row} {k v x} (h : x ≠ k) :
    rowHas (rowInsert r k v) x = rowHas r x := by
  simp [rowHas, rowGet_insert_ne h]

theorem rowGet_ite_insert {c : Prop} [Decidable c] {r : Row} {k v x}
    (h : x ≠ k) :
    rowGet (if c then rowInsert r k v else r) x = rowGet r x := by
  split
  · exact rowGet_insert_ne h
  · rfl

theorem rowGet_ite_insert_self {c : Prop} [Decidable c] {r : Row} {k : String}
    {v : Value} :
    rowGet (if c then rowInsert r k v else r) k
      = if c then some v else rowGet r k := by
  split
  · exact rowGet_insert_self
  · rfl

/-! ### Step lemmas for `build_feature_row` -/

theorem baseStep_get_ne {nf e r x} (h1 : x ≠ "sleep") (h2 : x ≠ "energy")
    (h3 : x ≠ "mood") (h4 : x ≠ "anxiety_7d_avg") :
    rowGet (baseStep nf e r) x = rowGet r x := by
  simp only [baseStep, rowGet_ite_insert h1, rowGet_ite_insert h2,
    rowGet_ite_insert h3, rowGet_ite_insert h4]

theorem baseStep_get_mood {nf e r} :
    rowGet (baseStep nf e r) "mood"
      = if "mood" ∈ nf then some (.num (10 - e.mood)) else rowGet r "mood" := by
  simp only [baseStep,
    rowGet_ite_insert (show ("mood" : String) ≠ "anxiety_7d_avg" by decide),
    rowGet_ite_insert_self,
    rowGet_ite_insert (show ("mood" : String) ≠ "energy" by decide),
    rowGet_ite_insert (show ("mood" : String) ≠ "sleep" by decide)]

theorem timeStep_get_ne {nf dt r x} (h1 : x ≠ "hour") (h2 : x ≠ "is_weekend") :
    rowGet (timeStep nf dt r) x = rowGet r x := by
  simp only [timeStep, rowGet_ite_insert h1, rowGet_ite_insert h2]

theorem cycStep_get_ne {nf dt r x} (h1 : x ≠ "dow_sin") (h2 : x ≠ "dow_cos")
    (h3 : x ≠ "hour_sin") (h4 : x ≠ "hour_cos") :
    rowGet (cycStep nf dt r) x = rowGet r x := by
  simp only [cycStep, rowGet_ite_insert h1, rowGet_ite_insert h2,
    rowGet_ite_insert h3, rowGet_ite_insert h4]

theorem trigFold_get_not_starts {e : CheckInEntry} {x : String}
    (h : pyStartsWith x "trigger_" = false) :
    ∀ (tf : List String) (r : Row), rowGet (tf.foldl (trigF e) r) x = rowGet r x := by
  intro tf
  induction tf with
  | nil => intro r; rfl
  | cons c t ih =>
    intro r
    rw [List.foldl_cons, ih]
    unfold trigF
    split
    · rename_i hc
      refine rowGet_insert_ne ?_
      intro hxc
      rw [hxc, hc] at h
      exact Bool.noConfusion h
    · rfl

theorem trigFold_get_not_mem {e : CheckInEntry} {x : String} :
    ∀ {tf : List String} (r : Row), x ∉ tf →
      rowGet (tf.foldl (trigF e) r) x = rowGet r x := by
  intro tf
  induction tf with
  | nil => intro r _; rfl
  | cons c t ih =>
    intro r hx
    rw [List.foldl_cons, ih _ (fun hm => hx (List.mem_cons_of_mem _ hm))]
    unfold trigF
    split
    · exact rowGet_insert_ne (fun hxc => hx (hxc ▸ List.mem_cons_self _ _))
    · rfl

theorem trigFold_get_mem {e : CheckInEntry} {x : String}
    (hx : pyStartsWith x "trigger_" = true) :
    ∀ {tf : List String} (r : Row), x ∈ tf →
      rowGet (tf.foldl (trigF e) r) x = some (.num (trigVal e x)) := by
  intro tf
  induction tf with
  | nil => intro r h; cases h
  | cons c t ih =>
    intro r hmem
    rw [List.foldl_cons]
    by_cases hxt : x ∈ t
    · exact ih _ hxt
    · have hxc : x = c := by
        rcases List.mem_cons.mp hmem with h | h
        · exact h
        · exact absurd h hxt
      subst hxc
      rw [trigFold_get_not_mem _ hxt]
      unfold trigF
      rw [if_pos hx]
      exact rowGet_insert_self

theorem trigStep_get_ne {tf : List String} {e : CheckInEntry} {r : Row} {x : String}
    (h1 : x ≠ "triggers") (h2 : pyStartsWith x "trigger_" = false) :
    rowGet (trigStep tf e r) x = rowGet r x := by
  unfold trigStep
  split
  · exact rowGet_insert_ne h1
  · exact trigFold_get_not_starts h2 tf r

theorem notes_featurize_keys (t : Option String) :
    (Serve.notes_featurize t).map Prod.fst = NOTE_KEYS := rfl

theorem noteFold_get_ne {nf : List String} {x : String} :
    ∀ {A : List (String × ℚ)} (r : Row), (∀ kv ∈ A, kv.1 ≠ x) →
      rowGet (A.foldl (noteF nf) r) x = rowGet r x := by
  intro A
  induction A with
  | nil => intro r _; rfl
  | cons a t ih =>
    intro r h
    rw [List.foldl_cons, ih _ (fun kv hm => h kv (List.mem_cons_of_mem _ hm))]
    unfold noteF
    split
    · exact rowGet_insert_ne (Ne.symm (h a (List.mem_cons_self _ _)))
    · rfl

theorem noteStep_get_ne {nf : List String} {e : CheckInEntry} {r : Row} {x : String}
    (hks : x ∉ NOTE_KEYS) (hsent : x ≠ "notes_sent") :
    rowGet (noteStep nf e r) x = rowGet r x := by
  have hkeys : ∀ kv ∈ Serve.notes_featurize (some (pyOrStr e.notes)), kv.1 ≠ x := by
    intro kv hm heq
    apply hks
    rw [← heq]
    have hmk : kv.1 ∈ (Serve.notes_featurize (some (pyOrStr e.notes))).map Prod.fst :=
      List.mem_map_of_mem _ hm
    rwa [notes_featurize_keys] at hmk
  simp only [noteStep]
  split
  · split
    · rw [rowGet_insert_ne hsent]
      exact noteFold_get_ne _ hkeys
    · exact noteFold_get_ne _ hkeys
  · exact noteFold_get_ne _ hkeys

theorem fillF_get_of_has {r : Row} {x c : String} (h : rowHas r x = true) :
    rowGet (fillF r c) x = rowGet r x := by
  unfold fillF
  split
  · rfl
  · rename_i hc
    refine rowGet_insert_ne ?_
    intro hxc
    subst hxc
    exact hc h

theorem fillF_get_ne {r : Row} {x c : String} (h : x ≠ c) :
    rowGet (fillF r c) x = rowGet r x := by
  unfold fillF
  split
  · rfl
  · exact rowGet_insert_ne h

theorem fillF_has {r : Row} {x c : String} (h : rowHas r x = true) :
    rowHas (fillF r c) x = true := by
  unfold rowHas
  unfold rowHas at h
  rw [fillF_get_of_has]
  · exact h
  · exact h

theorem fillFold_get_of_has {x : String} :
    ∀ (L : List String) (r : Row), rowHas r x = true →
      rowGet (L.foldl fillF r) x = rowGet r x := by
  intro L
  induction L with
  | nil => intro r _; rfl
  | cons c t ih =>
    intro r h
    rw [List.foldl_cons, ih _ (fillF_has h), fillF_get_of_has h]

theorem fillFold_has_of_mem {x : String} :
    ∀ (L : List String) (r : Row), x ∈ L ∨ rowHas r x = true →
      rowHas (L.foldl fillF r) x = true := by
  intro L
  induction L with
  | nil =>
    intro r h
    rcases h with h | h
    · cases h
    · exact h
  | cons c t ih =>
    intro r h
    rw [List.foldl_cons]
    rcases h with h | h
    · rcases List.mem_cons.mp h with rfl | hxt
      · refine ih _ (Or.inr ?_)
        unfold fillF
        split
        · assumption
        · exact rowHas_insert_self
      · exact ih _ (Or.inl hxt)
    · exact ih _ (Or.inr (fillF_has h))

theorem fillFold_get_default {x : String} :
    ∀ (L : List String) (r : Row), x ∈ L → rowHas r x = false →
      rowGet (L.foldl fillF r) x
        = some (if x == "triggers" then .str "" else .num 0) := by
  intro L
  induction L with
  | nil => intro r h; cases h
  | cons c t ih =>
    intro r hmem hhas
    rw [List.foldl_cons]
    by_cases hxc : x = c
    · subst hxc
      have hstep : rowGet (fillF r x) x
          = some (if x == "triggers" then .str "" else .num 0) := by
        unfold fillF
        rw [if_neg (by simp [hhas])]
        exact rowGet_insert_self
      have hstephas : rowHas (fillF r x) x = true := by
        unfold rowHas
        rw [hstep]
        rfl
      rw [fillFold_get_of_has _ _ hstephas, hstep]
    · have hxt : x ∈ t := by
        rcases List.mem_cons.mp hmem with h | h
        · exact absurd h hxc
        · exact h
      have hhas2 : rowHas (fillF r c) x = false := by
        unfold rowHas
        rw [fillF_get_ne hxc]
        exact hhas
      exact ih _ hxt hhas2

theorem fillStep_get_of_has {nf tf : List String} {r : Row} {x : String}
    (h : rowHas r x = true) :
    rowGet (fillStep nf tf r) x = rowGet r x :=
  fillFold_get_of_has _ _ h

theorem starts_trigger_props {c : String} (hcs : pyStartsWith c "trigger_" = true) :
    c ∉ NOTE_KEYS ∧ c ≠ "notes_sent" := by
  constructor
  · intro hm
    fin_cases hm <;> exact absurd hcs (by decide)
  · intro hq
    subst hq
    exact absurd hcs (by decide)

theorem core_get_mood {nf tf : List String} {e : CheckInEntry} {dt : PyDateTime}
    (h : "mood" ∈ nf) :
    rowGet (build_feature_row_core nf tf e dt) "mood" = some (.num (10 - e.mood)) := by
  unfold build_feature_row_core
  rw [noteStep_get_ne (by decide) (by decide),
    trigStep_get_ne (by decide) (by decide),
    cycStep_get_ne (by decide) (by decide) (by decide) (by decide),
    timeStep_get_ne (by decide) (by decide),
    baseStep_get_mood, if_pos h]

theorem build_get_mood {nf tf : List String} {e : CheckInEntry} {dt : PyDateTime}
    (h : "mood" ∈ nf) :
    rowGet (build_feature_row nf tf e dt) "mood" = some (.num (10 - e.mood)) := by
  have hhas : rowHas (build_feature_row_core nf tf e dt) "mood" = true := by
    unfold rowHas
    rw [core_get_mood h]
    rfl
  unfold build_feature_row
  rw [fillStep_get_of_has hhas, core_get_mood h]

theorem core_get_triggers_str {nf tf : List String} {e : CheckInEntry}
    {dt : PyDateTime} (h : "triggers" ∈ tf) :
    rowGet (build_feature_row_core nf tf e dt) "triggers"
      = some (.str (triggersJoin e.triggers)) := by
  unfold build_feature_row_core
  rw [noteStep_get_ne (by decide) (by decide)]
  unfold trigStep
  rw [if_pos h]
  exact rowGet_insert_self

theorem build_get_triggers_str {nf tf : List String} {e : CheckInEntry}
    {dt : PyDateTime} (h : "triggers" ∈ tf) :
    rowGet (build_feature_row nf tf e dt) "triggers"
      = some (.str (triggersJoin e.triggers)) := by
  have hhas : rowHas (build_feature_row_core nf tf e dt) "triggers" = true := by
    unfold rowHas
    rw [core_get_triggers_str h]
    rfl
  unfold build_feature_row
  rw [fillStep_get_of_has hhas, core_get_triggers_str h]

theorem core_get_trigger_col {nf tf : List String} {e : CheckInEntry}
    {dt : PyDateTime} {c : String} (hni : "triggers" ∉ tf) (hc : c ∈ tf)
    (hcs : pyStartsWith c "trigger_" = true) :
    rowGet (build_feature_row_core nf tf e dt) c = some (.num (trigVal e c)) := by
  obtain ⟨hks, hsent⟩ := starts_trigger_props hcs
  unfold build_feature_row_core
  rw [noteStep_get_ne hks hsent]
  unfold trigStep
  rw [if_neg hni]
  exact trigFold_get_mem hcs _ hc

theorem build_get_trigger_col {nf tf : List String} {e : CheckInEntry}
    {dt : PyDateTime} {c : String} (hni : "triggers" ∉ tf) (hc : c ∈ tf)
    (hcs : pyStartsWith c "trigger_" = true) :
    rowGet (build_feature_row nf tf e dt) c = some (.num (trigVal e c)) := by
  have hhas : rowHas (build_feature_row_core nf tf e dt) c = true := by
    unfold rowHas
    rw [core_get_trigger_col hni hc hcs]
    rfl
  unfold build_feature_row
  rw [fillStep_get_of_has hhas, core_get_trigger_col hni hc hcs]

/-! ### Helper lemmas for sentiment, prediction bounds and the tip filter -/

theorem filter_mem_length_comm {l m : List String} (hl : l.Nodup) (hm : m.Nodup) :
    (l.filter (fun w => decide (w ∈ m))).length
      = (m.filter (fun w => decide (w ∈ l))).length := by
  rw [← List.toFinset_card_of_nodup (hl.filter _),
    ← List.toFinset_card_of_nodup (hm.filter _)]
  congr 1
  ext a
  simp only [List.mem_toFinset, List.mem_filter, decide_eq_true_eq]
  exact And.comm

theorem sentiment_eq_spec (text : String) :
    Serve.simple_sentiment text = sentimentSpecAmended text := by
  by_cases h : text = ""
  · simp [Serve.simple_sentiment, sentimentSpecAmended, h]
  · have hcount : ∀ m : List String, m.Nodup →
        (((pySplitWs text).map (fun w => pyLower (pyStripChars w PUNCT))).dedup.filter
          (fun w => decide (w ∈ m))).length
          = (m.filter (fun p => decide
            (p ∈ (pySplitWs text).map (fun w => pyLower (pyStripChars w PUNCT))))).length := by
      intro m hm
      rw [filter_mem_length_comm (List.nodup_dedup _) hm]
      congr 1
      apply List.filter_congr
      intro a _
      simp [List.mem_dedup]
    simp only [Serve.simple_sentiment, sentimentSpecAmended]
    rw [if_neg h, if_neg h,
      hcount _ (by decide : Serve.POS.Nodup), hcount _ (by decide : Serve.NEG.Nodup)]

theorem np_clip_bounds (x : ℚ) : 0 ≤ np_clip x 0 10 ∧ np_clip x 0 10 ≤ 10 := by
  unfold np_clip pyMin pyMax
  split_ifs <;> constructor <;> linarith

theorem roundHalfEven_bounds {y : ℚ} (h0 : 0 ≤ y) (h100 : y ≤ 100) :
    0 ≤ roundHalfEven y ∧ roundHalfEven y ≤ 100 := by
  have hfl : (⌊y⌋ : ℚ) ≤ y := Int.floor_le y
  have hf0 : 0 ≤ ⌊y⌋ := Int.floor_nonneg.mpr h0
  have hf100 : ⌊y⌋ ≤ 100 := by
    have hq : (⌊y⌋ : ℚ) ≤ 100 := le_trans hfl h100
    exact_mod_cast hq
  unfold roundHalfEven
  split_ifs with h1 h2 h3
  · exact ⟨hf0, hf100⟩
  · constructor
    · omega
    · have hhalf : (⌊y⌋ : ℚ) + 1/2 < y := by linarith
      have hq : (⌊y⌋ : ℚ) < 100 := by linarith
      have hz : ⌊y⌋ < 100 := by exact_mod_cast hq
      omega
  · exact ⟨hf0, hf100⟩
  · constructor
    · omega
    · have hge : 1/2 ≤ y - ⌊y⌋ := not_lt.mp h1
      have hq : (⌊y⌋ : ℚ) < 100 := by linarith
      have hz : ⌊y⌋ < 100 := by exact_mod_cast hq
      omega

theorem predict_score_bounds (raw : ℚ) :
    0 ≤ predict_score raw ∧ predict_score raw ≤ 10 := by
  obtain ⟨hc0, hc10⟩ := np_clip_bounds raw
  have hy0 : 0 ≤ np_clip raw 0 10 * 10 := mul_nonneg hc0 (by norm_num)
  have hy100 : np_clip raw 0 10 * 10 ≤ 100 := by linarith
  obtain ⟨hr0, hr100⟩ := roundHalfEven_bounds hy0 hy100
  unfold predict_score np_round1
  constructor
  · apply div_nonneg _ (by norm_num)
    exact_mod_cast hr0
  · rw [div_le_iff₀ (by norm_num : (0 : ℚ) < 10)]
    have hq : (roundHalfEven (np_clip raw 0 10 * 10) : ℚ) ≤ 100 := by exact_mod_cast hr100
    linarith

theorem selectAux_length_le :
    ∀ (L tips seen : List String), tips.length ≤ 3 →
      (selectAux L tips seen).length ≤ 3 := by
  intro L
  induction L with
  | nil => intro tips seen h; exact h
  | cons l rest ih =>
    intro tips seen h
    simp only [selectAux]
    split
    · exact h
    · rename_i hlt
      split
      · exact ih _ _ h
      · refine ih _ _ ?_
        simp only [List.length_append, List.length_singleton]
        omega

/-! ### Claim theorems -/

/-- C1: the Notes Featurizer used at serving time and at training time are
the same function: for every input text, including empty or absent text,
the two implementations return identical key-value mappings (identical keys
and identical values). -/
theorem c1_notes_featurizer_equal (text : Option String) :
    Serve.notes_featurize text = Train.notes_featurize text := rfl

/-- C2 counterexample: for triggers `["Work", "Sleep deprivation"]` and a
manifest with `trigger_work` and `trigger_sleep` columns, the claim says
`trigger_sleep = 1.0`; the code tests exact membership of the suffix
`"sleep"` in the normalized list `["work", "sleep deprivation"]`, which
fails, so the row holds `0.0`. -/
theorem c2_counterexample :
    rowGet (build_feature_row [] ["trigger_work", "trigger_sleep"]
        (CheckInEntry.mk 7 5 3 4 (.list ["Work", "Sleep deprivation"])
          "2025-08-01T10:12:00Z" none)
        (PyDateTime.mk 10 4)) "trigger_sleep" = some (.num 0)
    ∧ Value.num 0 ≠ Value.num 1 :=
  ⟨by decide, by decide⟩

/-- C2 (amended): for a check-in with triggers `["Work", "Sleep deprivation"]`,
a manifest with a literal `triggers` column yields the joined string
`"Work,Sleep deprivation"`; otherwise every `trigger_*` manifest column is
`1.0` exactly when the lowercased, trimmed trigger list contains the
column's suffix as an element (so `trigger_work = 1.0` but
`trigger_sleep = 0.0`), and `0.0` for all other `trigger_*` columns. -/
theorem c2_trigger_encoding (nf tf : List String) (e : CheckInEntry)
    (dt : PyDateTime)
    (htr : e.triggers = .list ["Work", "Sleep deprivation"]) :
    ("triggers" ∈ tf →
      rowGet (build_feature_row nf tf e dt) "triggers"
        = some (.str "Work,Sleep deprivation"))
    ∧ ("triggers" ∉ tf → ∀ c ∈ tf, pyStartsWith c "trigger_" = true →
      rowGet (build_feature_row nf tf e dt) c
        = some (.num (if pyLower (pyReplace c "trigger_" "")
            ∈ ["work", "sleep deprivation"] then 1 else 0))) := by
  constructor
  · intro h
    rw [build_get_triggers_str h, htr]
    decide
  · intro hni c hc hcs
    rw [build_get_trigger_col hni hc hcs]
    unfold trigVal
    rw [htr,
      (by decide : triggersNorm (.list ["Work", "Sleep deprivation"])
        = ["work", "sleep deprivation"])]

/-- C2 witness: the amended claim evaluated on the concrete manifest
`["trigger_work", "trigger_sleep"]`, giving `trigger_work = 1.0`. -/
theorem c2_witness :
    rowGet (build_feature_row [] ["trigger_work", "trigger_sleep"]
        (CheckInEntry.mk 7 5 3 4 (.list ["Work", "Sleep deprivation"])
          "2025-08-01T10:12:00Z" none)
        (PyDateTime.mk 10 4)) "trigger_work" = some (.num 1) := by
  have h := (c2_trigger_encoding [] ["trigger_work", "trigger_sleep"]
      (CheckInEntry.mk 7 5 3 4 (.list ["Work", "Sleep deprivation"])
        "2025-08-01T10:12:00Z" none)
      (PyDateTime.mk 10 4) rfl).2 (by decide) "trigger_work" (by decide) (by decide)
  exact h.trans (by decide)

/-- C3: the `/predict` response equals the raw model output clamped into
`[0, 10]` and rounded to one decimal: the result is always in `[0, 10]`,
is an integer number of tenths, and raw outputs `-3.7` and `14.2` give
`0.0` and `10.0`. -/
theorem c3_predict_clamp_round (raw : ℚ) :
    predict_score raw = np_round1 (np_clip raw 0 10)
    ∧ 0 ≤ predict_score raw ∧ predict_score raw ≤ 10
    ∧ (∃ k : ℤ, predict_score raw = (k : ℚ) / 10)
    ∧ predict_score (-37/10) = 0 ∧ predict_score (142/10) = 10 := by
  obtain ⟨h0, h10⟩ := predict_score_bounds raw
  exact ⟨rfl, h0, h10, ⟨roundHalfEven (np_clip raw 0 10 * 10), rfl⟩,
    by decide, by decide⟩

/-- C4: for every check-in with a parseable timestamp and every manifest,
the built row contains every manifest column (numeric and trigger), and a
column not otherwise computed is filled with `""` for the literal
`triggers` column and `0.0` for any other column. -/
theorem c4_row_superset (nf tf : List String) (e : CheckInEntry)
    (dt : PyDateTime) (col : String) (hcol : col ∈ nf ++ tf) :
    rowHas (build_feature_row nf tf e dt) col = true
    ∧ (rowHas (build_feature_row_core nf tf e dt) col = false →
      rowGet (build_feature_row nf tf e dt) col
        = some (if col == "triggers" then .str "" else .num 0)) := by
  constructor
  · exact fillFold_has_of_mem _ _ (Or.inl hcol)
  · intro h
    exact fillFold_get_default _ _ hcol h

/-- C4 witness: a manifest column that nothing computes is present with the
numeric default `0.0`. -/
theorem c4_witness :
    rowGet (build_feature_row ["mood", "extra_col"] ["triggers"]
        (CheckInEntry.mk 7 5 3 4 (.list ["Work"]) "2025-08-01T10:12:00Z" none)
        (PyDateTime.mk 10 4)) "extra_col" = some (.num 0) := by
  have h := (c4_row_superset ["mood", "extra_col"] ["triggers"]
      (CheckInEntry.mk 7 5 3 4 (.list ["Work"]) "2025-08-01T10:12:00Z" none)
      (PyDateTime.mk 10 4) "extra_col" (by decide)).2 (by decide)
  exact h.trans (by decide)

/-- C5 counterexample: on `"anxious anxious panic panic panic"` the code's
sentiment is `-0.4` (distinct-token counting), while the claim's formula,
counting every token occurrence, gives `-1`; the claimed equality fails. -/
theorem c5_counterexample :
    Serve.simple_sentiment "anxious anxious panic panic panic" = -2/5
    ∧ sentimentClaimLiteral "anxious anxious panic panic panic" = -1
    ∧ (-2/5 : ℚ) ≠ -1 :=
  ⟨by decide, by decide, by norm_num⟩

/-- C5 (amended): the sentiment equals (number of distinct normalized
tokens in the positive lexicon minus number in the negative lexicon)
divided by 5, where tokens are whitespace-split, stripped of leading and
trailing `.,!?` and lowercased, clamped to `[-1, 1]`, empty text giving
`0.0`; concretely `"I feel calm and rested"` gives `0.4`, text without
lexicon words gives `0.0`, and `"anxious anxious panic panic panic"`
gives `-0.4`. -/
theorem c5_sentiment (text : String) :
    Serve.simple_sentiment text = sentimentSpecAmended text
    ∧ Serve.simple_sentiment "I feel calm and rested" = 2/5
    ∧ Serve.simple_sentiment "a gentle uneventful afternoon" = 0
    ∧ Serve.simple_sentiment "anxious anxious panic panic panic" = -2/5
    ∧ Serve.simple_sentiment "" = 0 :=
  ⟨sentiment_eq_spec text, by decide, by decide, by decide, by decide⟩

/-- C6 counterexample: a bundle that declares `numeric_features = []` is
served with the legacy default list, not with its declared (empty) list:
Python `or` treats the empty list as falsy. -/
theorem c6_counterexample :
    serving_numeric_features (Bundle.mk (some []) none none none) = DEFAULT_NUMERIC
    ∧ DEFAULT_NUMERIC ≠ ([] : List String) :=
  ⟨by decide, by decide⟩

/-- C6 (amended): the serving manifest equals the list the bundle declares
whenever that list is present and non-empty; when the declared key is
absent or its list empty, the legacy alias key (`numeric` /
`trigger_cols`) is served if present and non-empty, and the legacy
default lists are used only when the alias too is absent or empty. -/
theorem c6_manifest (b : Bundle) :
    (∀ l, b.numeric_features = some l → l ≠ [] → serving_numeric_features b = l)
    ∧ (∀ l, b.trigger_features = some l → l ≠ [] → serving_trigger_features b = l)
    ∧ (∀ l, (b.numeric_features = none ∨ b.numeric_features = some []) →
      b.numeric = some l → l ≠ [] → serving_numeric_features b = l)
    ∧ (∀ l, (b.trigger_features = none ∨ b.trigger_features = some []) →
      b.trigger_cols = some l → l ≠ [] → serving_trigger_features b = l)
    ∧ ((b.numeric_features = none ∨ b.numeric_features = some []) →
      (b.numeric = none ∨ b.numeric = some []) →
      serving_numeric_features b = DEFAULT_NUMERIC)
    ∧ ((b.trigger_features = none ∨ b.trigger_features = some []) →
      (b.trigger_cols = none ∨ b.trigger_cols = some []) →
      serving_trigger_features b = DEFAULT_TRIGGER) := by
  refine ⟨?_, ?_, ?_, ?_, ?_, ?_⟩
  · intro l hl hne
    unfold serving_numeric_features
    rw [hl]
    cases l with
    | nil => exact absurd rfl hne
    | cons a t => rfl
  · intro l hl hne
    unfold serving_trigger_features
    rw [hl]
    cases l with
    | nil => exact absurd rfl hne
    | cons a t => rfl
  · intro l h1 hl hne
    unfold serving_numeric_features
    rcases h1 with h1 | h1 <;> rw [h1, hl] <;>
      cases l with
      | nil => exact absurd rfl hne
      | cons a t => rfl
  · intro l h1 hl hne
    unfold serving_trigger_features
    rcases h1 with h1 | h1 <;> rw [h1, hl] <;>
      cases l with
      | nil => exact absurd rfl hne
      | cons a t => rfl
  · intro h1 h2
    unfold serving_numeric_features
    rcases h1 with h1 | h1 <;> rcases h2 with h2 | h2 <;> rw [h1, h2] <;> rfl
  · intro h1 h2
    unfold serving_trigger_features
    rcases h1 with h1 | h1 <;> rcases h2 with h2 | h2 <;> rw [h1, h2] <;> rfl

/-- C6 witness: a bundle whose declared `numeric_features` key is absent
but whose legacy alias `numeric` is non-empty is served the alias list. -/
theorem c6_witness :
    serving_numeric_features (Bundle.mk none (some ["sleep", "energy"]) none none)
      = ["sleep", "energy"] :=
  (c6_manifest (Bundle.mk none (some ["sleep", "energy"]) none none)).2.2.1
    ["sleep", "energy"] (Or.inl rfl) rfl (by decide)

/-- C7: whenever the generator raises or the filter accepts zero tips, the
single-shot tip endpoint answers with one of the three fixed static sets
chosen by score (`≥ 7` high, else `≥ 4` moderate, else low), each of
exactly 3 fixed strings joined in order; in particular score 8 with a
failing generator returns exactly the high-anxiety strings. -/
theorem c7_fallback (gen : GenResult) (s : ℚ)
    (h : gen = .err ∨ ∃ outs, gen = .ok outs ∧ select_best_tips outs = []) :
    get_tip_text gen s = fallback_tip_text s
    ∧ (7 ≤ s → fallback_tips s = FALLBACK_HIGH)
    ∧ (¬ 7 ≤ s → 4 ≤ s → fallback_tips s = FALLBACK_MID)
    ∧ (¬ 7 ≤ s → ¬ 4 ≤ s → fallback_tips s = FALLBACK_LOW)
    ∧ FALLBACK_HIGH.length = 3 ∧ FALLBACK_MID.length = 3 ∧ FALLBACK_LOW.length = 3
    ∧ (s = 8 → get_tip_text gen s = String.intercalate "\n" FALLBACK_HIGH) := by
  have hmain : get_tip_text gen s = fallback_tip_text s := by
    rcases h with rfl | ⟨outs, rfl, hsel⟩
    · rfl
    · simp [get_tip_text, hsel]
  refine ⟨hmain, ?_, ?_, ?_, by decide, by decide, by decide, ?_⟩
  · intro h7
    unfold fallback_tips
    rw [if_pos h7]
  · intro h7 h4
    unfold fallback_tips
    rw [if_neg h7, if_pos h4]
  · intro h7 h4
    unfold fallback_tips
    rw [if_neg h7, if_neg h4]
  · intro hs
    subst hs
    rw [hmain]
    decide

/-- C7 witness: predicted score 8 with a raising generator returns the
three high-anxiety strings newline-joined in order. -/
theorem c7_witness :
    get_tip_text .err 8
      = "Take 5 deep breaths and go for a short walk to reduce immediate stress.\nTry a grounding exercise: name 5 things you can see, 4 you can touch.\nLimit screen time for 30 minutes to lower cognitive overload." := by
  have h := (c7_fallback .err 8 (Or.inl rfl)).2.2.2.2.2.2.2 rfl
  exact h.trans (by decide)

/-- C8: the Tip Selection Filter returns at most 3 tips; the trend echo
`"Mon:3, Tue:4, Wed:3"` is discarded, `"Try a 10-minute walk outside
today"` is accepted, and case-insensitive duplicates are dropped. -/
theorem c8_tip_filter :
    (∀ outs : List String, (select_best_tips outs).length ≤ 3)
    ∧ select_best_tips ["Mon:3, Tue:4, Wed:3"] = []
    ∧ select_best_tips ["Try a 10-minute walk outside today"]
        = ["Try a 10-minute walk outside today"]
    ∧ select_best_tips
        ["Try a 10-minute walk outside today\nTRY A 10-MINUTE WALK OUTSIDE TODAY"]
        = ["Try a 10-minute walk outside today"] := by
  refine ⟨?_, by decide, by decide, by decide⟩
  intro outs
  exact selectAux_length_le _ _ _ (by decide)

/-- C9: whenever the manifest names `mood`, the row's mood feature equals
`10 -` the input mood, hence strictly decreases as the input mood grows. -/
theorem c9_mood_distress (nf tf : List String) (e e' : CheckInEntry)
    (dt dt' : PyDateTime) (h : "mood" ∈ nf) :
    rowGet (build_feature_row nf tf e dt) "mood" = some (.num (10 - e.mood))
    ∧ (e.mood < e'.mood →
      ∃ v v', rowGet (build_feature_row nf tf e dt) "mood" = some (.num v)
        ∧ rowGet (build_feature_row nf tf e' dt') "mood" = some (.num v')
        ∧ v' < v) := by
  refine ⟨build_get_mood h, ?_⟩
  intro hm
  exact ⟨10 - e.mood, 10 - e'.mood, build_get_mood h, build_get_mood h, by linarith⟩

/-- C9 witness: input mood 3 produces the distress value 7 in the row. -/
theorem c9_witness :
    rowGet (build_feature_row ["mood"] ["triggers"]
        (CheckInEntry.mk 7 5 3 4 (.list ["Work"]) "2025-08-01T10:12:00Z" none)
        (PyDateTime.mk 10 4)) "mood" = some (.num 7) := by
  have h := (c9_mood_distress ["mood"] ["triggers"]
      (CheckInEntry.mk 7 5 3 4 (.list ["Work"]) "2025-08-01T10:12:00Z" none)
      (CheckInEntry.mk 7 5 3 4 (.list ["Work"]) "2025-08-01T10:12:00Z" none)
      (PyDateTime.mk 10 4) (PyDateTime.mk 10 4) (by decide)).1
  exact h.trans (by decide)

/-- C10: the trainer's bundle always declares the fixed 14-name numeric
manifest and `["triggers"]`, independent of the dataset; with that trigger
manifest the serving trigger encoder always takes the joined-string
branch, never the pre-expanded `trigger_*` mode. -/
theorem c10_trainer_manifest :
    Train.NUMERIC_FEATURES
      = ["sleep", "energy", "mood", "anxiety_7d_avg", "notes_len", "notes_words",
         "notes_sentiment", "kw_work", "kw_school", "kw_exam", "kw_sleep",
         "kw_social", "kw_finance", "kw_health"]
    ∧ Train.bundle_manifest = (Train.NUMERIC_FEATURES, ["triggers"])
    ∧ ∀ (e : CheckInEntry) (r : Row),
        trigStep Train.TRIGGER_FEATURES e r
          = rowInsert r "triggers" (.str (triggersJoin e.triggers)) := by
  refine ⟨by decide, rfl, ?_⟩
  intro e r
  unfold trigStep
  rw [if_pos (show "triggers" ∈ Train.TRIGGER_FEATURES by decide)]

end AnxietyML
